import Mathlib

/-!
Shallow embedding of the MailwizzTester delivery-server testing engine.

Each definition below mirrors one function or class of the TypeScript
source. External effects (database queries, HTTP requests, mailbox
sessions) are modelled by passing their outcomes in explicitly, while the
control flow, thresholds, retry loops and error messages of the source are
reproduced faithfully. JavaScript truthiness of optional strings and the
runtime behaviour of extra call arguments are modelled where the source
depends on them.
-/

/-! ## Generic JavaScript-semantics helpers -/

/-- Truthiness of an optional string value in JavaScript: undefined and the
empty string are falsy, every other string is truthy. -/
def jsTruthy : Option String → Bool
  | none => false
  | some s => !(s == "")

/-- The JavaScript expression a or-else b on optional strings: yields a when a
is truthy, otherwise b. -/
def jsOr (a b : Option String) : Option String :=
  if jsTruthy a then a else b

/-- Property access headers[key] on a parsed-header record, modelled as lookup
in an association list; absent keys give undefined. -/
def jsGetHeader (headers : List (String × String)) (key : String) : Option String :=
  (headers.find? (fun p => p.1 == key)).map (fun p => p.2)

/-- The JavaScript trim method: remove whitespace from both ends of the
string; written over character lists so that it evaluates by reduction. -/
def jsTrim (s : String) : String :=
  String.mk (((s.toList.dropWhile Char.isWhitespace).reverse.dropWhile
    Char.isWhitespace).reverse)

/-- The JavaScript toLowerCase method over the basic latin range; written over
character lists so that it evaluates by reduction. -/
def jsToLower (s : String) : String :=
  String.mk (s.toList.map Char.toLower)

/-- Accumulator loop of splitOnChar. -/
def splitOnCharAux (c : Char) : List Char → List Char → List (List Char)
  | [], acc => [acc.reverse]
  | d :: t, acc =>
      if d == c then acc.reverse :: splitOnCharAux c t []
      else splitOnCharAux c t (d :: acc)

/-- The JavaScript split method at a single-character separator: the list of
the separated pieces, with empty pieces kept. -/
def splitOnChar (c : Char) (l : List Char) : List (List Char) :=
  splitOnCharAux c l []

/-- Boolean test of whether the list n occurs as a contiguous leading block
of the list h. -/
def listPrefixTest : List Char → List Char → Bool
  | [], _ => true
  | _ :: _, [] => false
  | a :: n, b :: h => a == b && listPrefixTest n h

/-- Boolean test of whether the list n occurs contiguously anywhere in h. -/
def listContainsSeq (n : List Char) : List Char → Bool
  | [] => listPrefixTest n []
  | b :: t => listPrefixTest n (b :: t) || listContainsSeq n t

/-- Whether the string needle occurs as a contiguous substring of hay; used to
state that an error message names a signal. -/
def strMentions (needle hay : String) : Bool :=
  listContainsSeq needle.toList hay.toList

/-- Numeric value of the leading decimal-digit block of a character list, or
none when the list does not start with a digit. -/
def digitsPrefixVal (l : List Char) : Option Nat :=
  let ds := l.takeWhile Char.isDigit
  if ds.isEmpty then none
  else some (ds.foldl (fun acc c => acc * 10 + (c.toNat - 48)) 0)

/-- The JavaScript parseInt function at radix 10: skip leading whitespace,
accept an optional sign, read the longest digit block and ignore any trailing
characters; yield none in place of NaN when no digit is found. -/
def jsParseInt (s : String) : Option Int :=
  let l := s.toList.dropWhile Char.isWhitespace
  match l with
  | '-' :: rest => (digitsPrefixVal rest).map (fun n => -(n : Int))
  | '+' :: rest => (digitsPrefixVal rest).map (fun n => (n : Int))
  | _ => (digitsPrefixVal l).map (fun n => (n : Int))

/-! ## EmailInteractor (src/services/EmailInteractor.ts) -/

/-- Outcome of the one HTTP GET issued by axios for a link: either a completed
HTTP response with a status code, or a connection-level error or timeout that
produced no response. -/
inductive AxiosOutcome where
  | response (status : Nat)
  | networkError (msg : String)
deriving DecidableEq

/-- Result shape of EmailInteractor.sendInteractionRequest. -/
structure InteractionReqResult where
  success : Bool
  error : Option String
deriving DecidableEq

/-- Embeds EmailInteractor.sendInteractionRequest. The axios promise resolves
only for status codes in the 200 to 299 range (the axios default
validateStatus); for any other status the promise rejects with the response
attached and the catch branch of the source returns failure with the message
HTTP followed by the status, and for a connection-level error or timeout the
catch branch returns failure with the error message. -/
def EmailInteractor.sendInteractionRequest (outcome : AxiosOutcome) : InteractionReqResult :=
  match outcome with
  | .response s =>
      if 200 ≤ s ∧ s < 300 then ⟨true, none⟩
      else ⟨false, some ("HTTP " ++ toString s)⟩
  | .networkError m => ⟨false, some m⟩

/-- Links extracted from the HTML body of the retrieved email, together with
the HTTP outcome each URL would produce when fetched. This packages what
EmailLinkExtractor computes from the message and what the network returns. -/
structure InteractionEnv where
  trackingPixelUrl : Option String
  contentLinks : List String
  unsubscribeLink : Option String
  http : String → AxiosOutcome

/-- The interactedLinks field of EmailInteractionResult. -/
structure EmailInteractionLinks where
  openPixelUrl : Option String
  clickedUrl : Option String
  unsubscribeUrl : Option String
deriving DecidableEq

/-- The errors field of EmailInteractionResult. -/
structure EmailInteractionErrors where
  openError : Option String
  clickError : Option String
  unsubscribeError : Option String
deriving DecidableEq

/-- Embeds the EmailInteractionResult interface of the source. -/
structure EmailInteractionResult where
  success : Bool
  openSuccess : Bool
  clickSuccess : Bool
  unsubscribeSuccess : Bool
  interactedLinks : EmailInteractionLinks
  errors : EmailInteractionErrors
deriving DecidableEq

/-- Embeds EmailInteractor.handleEmailOpenAndUpdateResult: when a tracking
pixel URL was extracted, fetch it and record the outcome; otherwise record the
error No tracking pixel URL found. -/
def EmailInteractor.handleEmailOpenAndUpdateResult (env : InteractionEnv)
    (result : EmailInteractionResult) : EmailInteractionResult :=
  match env.trackingPixelUrl with
  | some url =>
      let openResult := EmailInteractor.sendInteractionRequest (env.http url)
      let r1 := { result with
        interactedLinks := { result.interactedLinks with openPixelUrl := some url },
        openSuccess := openResult.success }
      if openResult.success then r1
      else { r1 with errors := { r1.errors with openError := openResult.error } }
  | none =>
      { result with errors := { result.errors with openError := some "No tracking pixel URL found" } }

/-- Embeds EmailInteractor.handleLinkClickAndUpdateResult: when content links
were extracted, fetch the first one and record the outcome; otherwise record
the error No content links found. -/
def EmailInteractor.handleLinkClickAndUpdateResult (env : InteractionEnv)
    (result : EmailInteractionResult) : EmailInteractionResult :=
  match env.contentLinks with
  | linkToClick :: _ =>
      let clickResult := EmailInteractor.sendInteractionRequest (env.http linkToClick)
      let r1 := { result with
        interactedLinks := { result.interactedLinks with clickedUrl := some linkToClick },
        clickSuccess := clickResult.success }
      if clickResult.success then r1
      else { r1 with errors := { r1.errors with clickError := clickResult.error } }
  | [] =>
      { result with errors := { result.errors with clickError := some "No content links found" } }

/-- Embeds EmailInteractor.handleUnsubscribeAndUpdateResult: when an
unsubscribe link was extracted, fetch it and record the outcome; otherwise
record the error No unsubscribe link found. -/
def EmailInteractor.handleUnsubscribeAndUpdateResult (env : InteractionEnv)
    (result : EmailInteractionResult) : EmailInteractionResult :=
  match env.unsubscribeLink with
  | some url =>
      let unsubscribeResult := EmailInteractor.sendInteractionRequest (env.http url)
      let r1 := { result with
        interactedLinks := { result.interactedLinks with unsubscribeUrl := some url },
        unsubscribeSuccess := unsubscribeResult.success }
      if unsubscribeResult.success then r1
      else { r1 with errors := { r1.errors with unsubscribeError := unsubscribeResult.error } }
  | none =>
      { result with errors := { result.errors with unsubscribeError := some "No unsubscribe link found" } }

/-- Number of true flags among the three per-signal success flags, as computed
by the successCount filter of the source. -/
def interactionSuccessCount (r : EmailInteractionResult) : Nat :=
  ([r.openSuccess, r.clickSuccess, r.unsubscribeSuccess].filter (fun b => b)).length

/-- Embeds EmailInteractor.simulateEmailInteractions: run the open, click and
unsubscribe handlers in order on an initially all-false result, then set the
overall success flag to whether at least 2 of the 3 signals succeeded. The
surrounding try-catch of the source is unreachable because every handler
returns normally. -/
def EmailInteractor.simulateEmailInteractions (env : InteractionEnv) : EmailInteractionResult :=
  let r0 : EmailInteractionResult :=
    ⟨false, false, false, false, ⟨none, none, none⟩, ⟨none, none, none⟩⟩
  let r1 := EmailInteractor.handleEmailOpenAndUpdateResult env r0
  let r2 := EmailInteractor.handleLinkClickAndUpdateResult env r1
  let r3 := EmailInteractor.handleUnsubscribeAndUpdateResult env r2
  { r3 with success := decide (2 ≤ interactionSuccessCount r3) }

/-! ## MailwizzInteractionStatsDbConnector (data/mailwizz) -/

/-- Embeds MailwizzInteractionStatsDbConnector.hasCampaignOpenRecords. The
argument is the outcome of the COUNT query against mw_campaign_track_open: a
list of count rows, or a raised database error. A raised error is caught and
reported as false; an empty row set makes the row access throw inside the same
try block, which is likewise caught and reported as false. -/
def MailwizzInteractionStatsDbConnector.hasCampaignOpenRecords
    (queryOutcome : Except String (List Nat)) : Bool :=
  match queryOutcome with
  | .ok (c :: _) => decide (0 < c)
  | .ok [] => false
  | .error _ => false

/-- Embeds MailwizzInteractionStatsDbConnector.hasCampaignUrlClickRecords over
the outcome of the COUNT query joining mw_campaign_track_url through
mw_campaign_url; errors are caught and reported as false. -/
def MailwizzInteractionStatsDbConnector.hasCampaignUrlClickRecords
    (queryOutcome : Except String (List Nat)) : Bool :=
  match queryOutcome with
  | .ok (c :: _) => decide (0 < c)
  | .ok [] => false
  | .error _ => false

/-- Embeds MailwizzInteractionStatsDbConnector.hasCampaignUnsubscribeRecords
over the outcome of the COUNT query against mw_campaign_track_unsubscribe;
errors are caught and reported as false. -/
def MailwizzInteractionStatsDbConnector.hasCampaignUnsubscribeRecords
    (queryOutcome : Except String (List Nat)) : Bool :=
  match queryOutcome with
  | .ok (c :: _) => decide (0 < c)
  | .ok [] => false
  | .error _ => false

/-- Embeds MailwizzInteractionStatsDbConnector.hasCampaignBounceRecords over
the outcome of the COUNT query against mw_campaign_bounce_log; errors are
caught and reported as false. -/
def MailwizzInteractionStatsDbConnector.hasCampaignBounceRecords
    (queryOutcome : Except String (List Nat)) : Bool :=
  match queryOutcome with
  | .ok (c :: _) => decide (0 < c)
  | .ok [] => false
  | .error _ => false

/-! ## EmailInteractionValidator (src/services/EmailInteractionValidator.ts) -/

/-- Answers of the four tracking-table checks for one campaign: one boolean
each for open, click and unsubscribe, and one boolean per attempt number for
the bounce check, which is retried. Because every connector method catches
internally and returns a boolean, the checks cannot throw. -/
structure AuditEnv where
  hasOpen : Bool
  hasClick : Bool
  hasUnsub : Bool
  hasBounce : Nat → Bool

/-- One tracking-table query performed by the validator, recorded in order in
a trace so that query counts can be stated. -/
inductive AuditSignal where
  | opened
  | clicked
  | unsubscribed
  | bounced
deriving DecidableEq

/-- The errors field of EmailInteractionValidationResult. -/
structure EmailInteractionValidationErrors where
  openError : Option String
  clickError : Option String
  unsubscribeError : Option String
  bounceError : Option String
deriving DecidableEq

/-- Embeds the EmailInteractionValidationResult interface of the source. -/
structure EmailInteractionValidationResult where
  success : Bool
  openRecordsExist : Bool
  clickRecordsExist : Bool
  unsubscribeRecordsExist : Bool
  bounceRecordsExist : Bool
  errors : EmailInteractionValidationErrors
deriving DecidableEq

/-- Default maximum number of bounce-check attempts of the source. -/
def EmailInteractionValidator.DEFAULT_BOUNCE_MAX_ATTEMPTS : Nat := 10

/-- Default delay in milliseconds between bounce-check attempts of the
source. -/
def EmailInteractionValidator.DEFAULT_BOUNCE_RETRY_DELAY_MS : Nat := 60000

/-- Failure message produced after the bounce retry loop exhausts its
attempts. The source appends a colon and the last caught error when a query
threw, but the connector catches internally and never throws, so that suffix
is always empty. -/
def EmailInteractionValidator.bounceFailureMessage (maxAttempts : Nat) : String :=
  "No bounce records found after " ++ toString maxAttempts ++ " attempts"

/-- Loop body of validateBounceRecordsWithRetry. The first component of the
fuel counts the remaining attempts; attempts counts those already made, and
waits records each inter-attempt delay performed so far. Mirrors the source
while loop: increment the attempt counter, query, return on success, and wait
only when further attempts remain. -/
def EmailInteractionValidator.bounceLoop (hasBounce : Nat → Bool) (maxAttempts delayMs : Nat) :
    Nat → Nat → List Nat → (Bool × Option String) × Nat × List Nat
  | 0, attempts, waits =>
      ((false, some (EmailInteractionValidator.bounceFailureMessage maxAttempts)), attempts, waits)
  | Nat.succ r, attempts, waits =>
      let a := attempts + 1
      if hasBounce a then ((true, none), a, waits)
      else
        EmailInteractionValidator.bounceLoop hasBounce maxAttempts delayMs r a
          (if 0 < r then waits ++ [delayMs] else waits)

/-- Embeds EmailInteractionValidator.validateBounceRecordsWithRetry. Returns
the exists-or-error pair of the source together with the number of attempts
performed and the list of waits taken between attempts. -/
def EmailInteractionValidator.validateBounceRecordsWithRetry (hasBounce : Nat → Bool)
    (maxAttempts delayMs : Nat) : (Bool × Option String) × Nat × List Nat :=
  EmailInteractionValidator.bounceLoop hasBounce maxAttempts delayMs maxAttempts 0 []

/-- Embeds EmailInteractionValidator.validateEmailInteractionsFromMailwizz:
query open, click and unsubscribe once each, run the bounce retry loop with
the default attempt count and delay, set the per-signal error strings of the
source for each missing signal, and succeed only when the count of successful
signals equals 4. Also returns the trace of tracking-table queries performed,
in order. -/
def EmailInteractionValidator.validateEmailInteractionsFromMailwizz (env : AuditEnv) :
    EmailInteractionValidationResult × List AuditSignal :=
  let o := env.hasOpen
  let c := env.hasClick
  let u := env.hasUnsub
  let bounce := EmailInteractionValidator.validateBounceRecordsWithRetry env.hasBounce
    EmailInteractionValidator.DEFAULT_BOUNCE_MAX_ATTEMPTS
    EmailInteractionValidator.DEFAULT_BOUNCE_RETRY_DELAY_MS
  let b := bounce.1.1
  let errors : EmailInteractionValidationErrors :=
    { openError := if o then none else some "No email open tracking records found in database"
      clickError := if c then none else some "No URL click tracking records found in database"
      unsubscribeError := if u then none else some "No unsubscribe tracking records found in database"
      bounceError := if b then none else
        some (match bounce.1.2 with
          | some e => e
          | none => "No bounce records found in database") }
  let successCount := ([o, c, u, b].filter (fun x => x)).length
  ({ success := decide (successCount = 4)
     openRecordsExist := o
     clickRecordsExist := c
     unsubscribeRecordsExist := u
     bounceRecordsExist := b
     errors := errors },
   [AuditSignal.opened, AuditSignal.clicked, AuditSignal.unsubscribed]
     ++ List.replicate bounce.2.1 AuditSignal.bounced)

/-- The expression Object.values(errors).filter(Boolean).join of the source:
the assigned error strings in insertion order, dropping absent and empty ones,
joined with a comma and space. -/
def jsFilterJoinErrors (l : List (Option String)) : String :=
  String.intercalate ", " ((l.filterMap id).filter (fun s => !(s == "")))

/-- Embeds EmailInteractionValidator.validateInteractionRecords: return
normally when the validation succeeded, otherwise throw an error whose message
joins the per-signal error strings in the order open, click, unsubscribe,
bounce. -/
def EmailInteractionValidator.validateInteractionRecords (env : AuditEnv) :
    Except String Unit :=
  let vr := (EmailInteractionValidator.validateEmailInteractionsFromMailwizz env).1
  if vr.success then Except.ok ()
  else Except.error (jsFilterJoinErrors
    [vr.errors.openError, vr.errors.clickError, vr.errors.unsubscribeError, vr.errors.bounceError])

/-- Builds the audit answers from raw query outcomes through the four
connector methods, composing the validator with
MailwizzInteractionStatsDbConnector as the orchestrator does. -/
def auditEnvOfQueries (qOpen qClick qUnsub : Except String (List Nat))
    (qBounce : Nat → Except String (List Nat)) : AuditEnv :=
  { hasOpen := MailwizzInteractionStatsDbConnector.hasCampaignOpenRecords qOpen
    hasClick := MailwizzInteractionStatsDbConnector.hasCampaignUrlClickRecords qClick
    hasUnsub := MailwizzInteractionStatsDbConnector.hasCampaignUnsubscribeRecords qUnsub
    hasBounce := fun k => MailwizzInteractionStatsDbConnector.hasCampaignBounceRecords (qBounce k) }

/-! ## EmailHeaderTester (src/services/EmailHeaderTester.ts) -/

/-- The parsed email as seen by the header tester: the formatted from address
field of the parser and the header map. -/
structure ParsedEmailModel where
  fromAddr : String
  headers : List (String × String)
deriving DecidableEq

/-- Delivery server row fields used by this engine. -/
structure MailwizzDeliveryServer where
  server_id : Nat
  from_email : String
  status : String
  last_updated : Nat
deriving DecidableEq

/-- Leftmost capture of the regular expression matching an angle-bracketed
block: at the first opening angle bracket, the characters up to the next
closing one form the capture when nonempty; an immediately closed pair makes
the search resume after the opening bracket, and a missing closing bracket
fails the whole search. -/
def angleCapture : List Char → Option (List Char)
  | [] => none
  | c :: rest =>
      if c == '<' then
        let content := rest.takeWhile (fun d => d != '>')
        match rest.dropWhile (fun d => d != '>') with
        | '>' :: _ => if content.isEmpty then angleCapture rest else some content
        | _ => none
      else angleCapture rest

/-- Embeds EmailHeaderTester.extractEmailAddress: take the trimmed
angle-bracketed part when present; otherwise accept the whole trimmed value
when it holds an at sign and no space; otherwise the empty string. -/
def EmailHeaderTester.extractEmailAddress (headerValue : String) : String :=
  match angleCapture headerValue.toList with
  | some content => jsTrim (String.mk content)
  | none =>
      if headerValue.toList.contains '@' && !(headerValue.toList.contains ' ') then
        jsTrim headerValue
      else ""

/-- Removal of one pair of surrounding double quotes, as done by the source on
an extracted display name. -/
def stripQuotes (l : List Char) : List Char :=
  if 2 ≤ l.length ∧ l.head? = some '"' ∧ l.getLast? = some '"' then
    (l.drop 1).dropLast
  else l

/-- Embeds EmailHeaderTester.extractName: when an opening angle bracket occurs
at a positive index, the trimmed text before it with surrounding double quotes
removed; otherwise the empty string. -/
def EmailHeaderTester.extractName (headerValue : String) : String :=
  let l := headerValue.toList
  match l.findIdx? (fun c => c == '<') with
  | some i =>
      if 0 < i then String.mk (stripQuotes ((jsTrim (String.mk (l.take i))).toList))
      else ""
  | none => ""

/-- Result shape shared by the three header checks of the source. -/
structure HeaderCheckResult where
  success : Bool
  value : Option String
  error : Option String
deriving DecidableEq

/-- The header lookup headers sender or-else headers Sender of the source. -/
def senderHeaderValue (email : ParsedEmailModel) : Option String :=
  jsOr (jsGetHeader email.headers "sender") (jsGetHeader email.headers "Sender")

/-- Embeds EmailHeaderTester.checkSenderHeader: require the header to be
present and nonempty, extract the address part falling back to the raw value,
and compare it with the expected email ignoring case. -/
def EmailHeaderTester.checkSenderHeader (email : ParsedEmailModel) (expectedEmail : String) :
    HeaderCheckResult :=
  let senderHeader := senderHeaderValue email
  if !(jsTruthy senderHeader) then ⟨false, none, some "Sender header is missing"⟩
  else
    let senderValue := senderHeader.getD ""
    if senderValue == "" then ⟨false, none, some "Sender header is empty"⟩
    else
      let extractedEmail :=
        if EmailHeaderTester.extractEmailAddress senderValue == "" then senderValue
        else EmailHeaderTester.extractEmailAddress senderValue
      if !(jsToLower extractedEmail == jsToLower expectedEmail) then
        ⟨false, some senderValue,
          some ("Sender header email (" ++ extractedEmail ++ ") does not match expected ("
            ++ expectedEmail ++ ")")⟩
      else ⟨true, some senderValue, none⟩

/-- The header lookup from field or-else headers from or-else headers From of
the source. -/
def fromHeaderValue (email : ParsedEmailModel) : Option String :=
  jsOr (jsOr (some email.fromAddr) (jsGetHeader email.headers "from"))
    (jsGetHeader email.headers "From")

/-- Embeds EmailHeaderTester.checkFromHeader: require the value to be present
and nonempty and to contain an extractable address, compare the address with
the expected email ignoring case, and accept the display name when absent or,
ignoring case, equal to the expected name either whole or cut at its first
dot. -/
def EmailHeaderTester.checkFromHeader (email : ParsedEmailModel)
    (expectedName expectedEmail : String) : HeaderCheckResult :=
  let fromValue := fromHeaderValue email
  if !(jsTruthy fromValue) then ⟨false, none, some "From header is missing"⟩
  else
    let fromString := fromValue.getD ""
    if fromString == "" then ⟨false, none, some "From header is empty"⟩
    else
      let extractedEmail := EmailHeaderTester.extractEmailAddress fromString
      if extractedEmail == "" then
        ⟨false, some fromString,
          some ("From header doesn\x27t contain a valid email address: " ++ fromString)⟩
      else
        let extractedName := EmailHeaderTester.extractName fromString
        if !(jsToLower extractedEmail == jsToLower expectedEmail) then
          ⟨false, some fromString,
            some ("From header email (" ++ extractedEmail ++ ") does not match expected ("
              ++ expectedEmail ++ ")")⟩
        else
          let expectedNameWithoutTLD := String.mk ((splitOnChar '.' expectedName.toList).headD [])
          if !(extractedName == "") && !(jsToLower extractedName == jsToLower expectedName)
              && !(jsToLower extractedName == jsToLower expectedNameWithoutTLD) then
            ⟨false, some fromString,
              some ("From header name (" ++ extractedName ++ ") does not match expected name ("
                ++ expectedName ++ " or " ++ expectedNameWithoutTLD ++ ")")⟩
          else ⟨true, some fromString, none⟩

/-- The four-way header lookup for the reply-to header of the source. -/
def replyToHeaderValue (email : ParsedEmailModel) : Option String :=
  jsOr (jsOr (jsOr (jsGetHeader email.headers "reply-to") (jsGetHeader email.headers "Reply-To"))
    (jsGetHeader email.headers "replyto")) (jsGetHeader email.headers "ReplyTo")

/-- Embeds EmailHeaderTester.checkReplyToHeader, which mirrors the From check
over the four common spellings of the reply-to header name. -/
def EmailHeaderTester.checkReplyToHeader (email : ParsedEmailModel)
    (expectedName expectedEmail : String) : HeaderCheckResult :=
  let replyToHeader := replyToHeaderValue email
  if !(jsTruthy replyToHeader) then ⟨false, none, some "Reply-To header is missing"⟩
  else
    let replyToValue := replyToHeader.getD ""
    if replyToValue == "" then ⟨false, none, some "Reply-To header is empty"⟩
    else
      let extractedEmail := EmailHeaderTester.extractEmailAddress replyToValue
      if extractedEmail == "" then
        ⟨false, some replyToValue,
          some ("Reply-To header doesn\x27t contain a valid email address: " ++ replyToValue)⟩
      else
        let extractedName := EmailHeaderTester.extractName replyToValue
        if !(jsToLower extractedEmail == jsToLower expectedEmail) then
          ⟨false, some replyToValue,
            some ("Reply-To header email (" ++ extractedEmail ++ ") does not match expected ("
              ++ expectedEmail ++ ")")⟩
        else
          let expectedNameWithoutTLD := String.mk ((splitOnChar '.' expectedName.toList).headD [])
          if !(extractedName == "") && !(jsToLower extractedName == jsToLower expectedName)
              && !(jsToLower extractedName == jsToLower expectedNameWithoutTLD) then
            ⟨false, some replyToValue,
              some ("Reply-To header name (" ++ extractedName ++ ") does not match expected name ("
                ++ expectedName ++ " or " ++ expectedNameWithoutTLD ++ ")")⟩
          else ⟨true, some replyToValue, none⟩

/-- The errors field of EmailHeaderTestResult. -/
structure EmailHeaderTestErrors where
  senderError : Option String
  fromError : Option String
  replyToError : Option String
deriving DecidableEq

/-- Embeds the EmailHeaderTestResult interface of the source. -/
structure EmailHeaderTestResult where
  success : Bool
  hasSender : Bool
  hasFrom : Bool
  hasReplyTo : Bool
  errors : EmailHeaderTestErrors
deriving DecidableEq

/-- The expected display name derived by the source from the from email of the
delivery server: the part after the first at sign. The source assumes the
address holds an at sign; without one it would fault. -/
def expectedNameOf (server : MailwizzDeliveryServer) : String :=
  String.mk ((splitOnChar '@' server.from_email.toList).getD 1 [])

/-- Embeds EmailHeaderTester.validateEmailHeaders: run the three header checks
against the expected email and derived expected name, record each error, and
succeed only when all three checks succeed. -/
def EmailHeaderTester.validateEmailHeaders (email : ParsedEmailModel)
    (server : MailwizzDeliveryServer) : EmailHeaderTestResult :=
  let expectedEmail := server.from_email
  let expectedName := expectedNameOf server
  let senderResult := EmailHeaderTester.checkSenderHeader email expectedEmail
  let fromResult := EmailHeaderTester.checkFromHeader email expectedName expectedEmail
  let replyToResult := EmailHeaderTester.checkReplyToHeader email expectedName expectedEmail
  { success := senderResult.success && fromResult.success && replyToResult.success
    hasSender := senderResult.success
    hasFrom := fromResult.success
    hasReplyTo := replyToResult.success
    errors :=
      { senderError := senderResult.error
        fromError := fromResult.error
        replyToError := replyToResult.error } }

/-! ## EmailRetriever (src/services/EmailRetriever.ts) -/

/-- Failure message thrown after the retrieval loop exhausts its attempts;
with no recorded error the interpolation renders undefined. -/
def EmailRetriever.retrievalFailureMessage (maxAttempts : Nat) (lastError : Option String) :
    String :=
  "Email retrieval failed after " ++ toString maxAttempts ++ " attempts: "
    ++ (match lastError with
      | some e => e
      | none => "undefined")

/-- Loop body of retrieveEmailWithRetries over the outcome of each numbered
attempt. The fuel counts the remaining attempts, attempts those already made,
and waits the inter-attempt delays performed so far. Mirrors the source while
loop: increment the counter, attempt, return any success, record the error of
a failure, and wait only when further attempts remain. -/
def EmailRetriever.retrieveLoop {α : Type} (attempt : Nat → Except String α)
    (timeBetweenAttemptsMs maxAttempts : Nat) :
    Nat → Nat → Option String → List Nat → Except String α × Nat × List Nat
  | 0, attempts, lastError, waits =>
      (Except.error (EmailRetriever.retrievalFailureMessage maxAttempts lastError),
        attempts, waits)
  | Nat.succ r, attempts, _lastError, waits =>
      let a := attempts + 1
      match attempt a with
      | .ok v => (Except.ok v, a, waits)
      | .error e =>
          EmailRetriever.retrieveLoop attempt timeBetweenAttemptsMs maxAttempts r a (some e)
            (if 0 < r then waits ++ [timeBetweenAttemptsMs] else waits)

/-- Embeds EmailRetriever.retrieveEmailWithRetries over the outcome of each
numbered mailbox scan attempt. Returns the final outcome together with the
number of attempts performed and the list of waits taken between attempts. -/
def EmailRetriever.retrieveEmailWithRetries {α : Type} (attempt : Nat → Except String α)
    (maxAttempts timeBetweenAttemptsMs : Nat) : Except String α × Nat × List Nat :=
  EmailRetriever.retrieveLoop attempt timeBetweenAttemptsMs maxAttempts maxAttempts 0 none []

/-! ## MailwizzDeliveryServersTestsDbConnector and MailwizzTester -/

/-- Status values of the mailwizz_delivery_servers_tests rows. -/
inductive MailwizzDeliveryServersTestsStatus where
  | PENDING
  | SUCCESSFUL
  | FAILED
deriving DecidableEq

/-- One persisted test row: delivery server id, status and error message. -/
structure TestRow where
  delivery_server_id : Nat
  status : MailwizzDeliveryServersTestsStatus
  error_message : Option String
deriving DecidableEq

/-- Database state touched by the orchestrator: the appended test rows and the
log of delivery-server status updates performed. -/
structure DbState where
  tests : List TestRow
  statusUpdates : List (Nat × String)
deriving DecidableEq

/-- Embeds MailwizzDeliveryServersTestsDbConnector.create as defined in the
data layer: its only parameter is the delivery server id, and it inserts a row
with status PENDING and no error message. MailwizzTester invokes it with a
status and an error message as extra arguments, which this signature does not
declare, so at run time they are dropped and do not reach the insert. -/
def MailwizzDeliveryServersTestsDbConnector.create (st : DbState) (deliveryServerId : Nat) :
    DbState :=
  { st with tests := st.tests ++ [⟨deliveryServerId, .PENDING, none⟩] }

/-- Embeds MailwizzDeliveryServerDbConnector.updateDeliveryServerStatus as a
log entry of the status written for the server. -/
def MailwizzDeliveryServerDbConnector.updateDeliveryServerStatus (st : DbState)
    (serverId : Nat) (status : String) : DbState :=
  { st with statusUpdates := st.statusUpdates ++ [(serverId, status)] }

/-- Outcomes of the collaborator stages invoked by
MailwizzTester.runForDeliveryServer, each an exception or a normal return. -/
structure RunEnv where
  getServer : Except String (Option MailwizzDeliveryServer)
  prepare : Except String Unit
  createCampaign : Except String (String × Nat)
  retrieveEmail : Except String Unit
  interact : Except String Unit
  validateRecords : Except String Unit
  testHeaders : Except String Unit
  addToGroup : Except String Unit

/-- The try block of runForDeliveryServer up to and including the header test:
resolve the delivery server, throwing the not-found message when absent, then
run preparation, campaign creation, retrieval, interaction simulation, record
validation and header testing in order, stopping at the first exception. -/
def MailwizzTester.runBody (env : RunEnv) (mailwizzDeliveryServerId : Nat) :
    Except String Unit := do
  let srv ← env.getServer
  match srv with
  | none =>
      Except.error ("Delivery server with ID " ++ toString mailwizzDeliveryServerId
        ++ " not found")
  | some _ => do
      let _ ← env.prepare
      let _ ← env.createCampaign
      let _ ← env.retrieveEmail
      let _ ← env.interact
      let _ ← env.validateRecords
      let _ ← env.testHeaders
      Except.ok ()

/-- Embeds MailwizzTester.runForDeliveryServer. On a normal pass it records a
test row and adds the server to the default customer group; a throw there, or
anywhere in the pipeline, lands in the catch block, which records a test row
through the create method of the connector, writes status inactive for the
server, and rethrows the original error. The inner try-catch around the status
write ignores a failure of that write alone; the write itself is modelled as
succeeding. -/
def MailwizzTester.runForDeliveryServer (env : RunEnv) (mailwizzDeliveryServerId : Nat)
    (st : DbState) : Except String Unit × DbState :=
  match MailwizzTester.runBody env mailwizzDeliveryServerId with
  | .ok _ =>
      let st1 := MailwizzDeliveryServersTestsDbConnector.create st mailwizzDeliveryServerId
      match env.addToGroup with
      | .ok _ => (Except.ok (), st1)
      | .error e =>
          let st2 := MailwizzDeliveryServersTestsDbConnector.create st1 mailwizzDeliveryServerId
          let st3 := MailwizzDeliveryServerDbConnector.updateDeliveryServerStatus st2
            mailwizzDeliveryServerId "inactive"
          (Except.error e, st3)
  | .error e =>
      let st1 := MailwizzDeliveryServersTestsDbConnector.create st mailwizzDeliveryServerId
      let st2 := MailwizzDeliveryServerDbConnector.updateDeliveryServerStatus st1
        mailwizzDeliveryServerId "inactive"
      (Except.error e, st2)

/-! ## AutoRunnerService (scanner) -/

/-- Modelled from the spec: the store query listActiveUpdatedWithin one hour,
selecting active servers whose configuration changed within the last hour. The
query itself is not in the sources, only its caller; times are in seconds. -/
def getActiveServersUpdatedInLastHour (servers : List MailwizzDeliveryServer) (now : Nat) :
    List MailwizzDeliveryServer :=
  servers.filter (fun s => s.status == "active" && decide (now - s.last_updated ≤ 3600))

/-- Modelled from the spec: the store query listActiveUntestedWithin 24 hours,
selecting active servers with no verdict recorded in the last 24 hours. The
query itself is not in the sources, only its caller; times are in seconds and
lastTestAt gives the time of the most recent verdict per server id. -/
def getActiveServersNotTestedInLast24Hours (servers : List MailwizzDeliveryServer)
    (lastTestAt : Nat → Option Nat) (now : Nat) : List MailwizzDeliveryServer :=
  servers.filter (fun s => s.status == "active" &&
    (match lastTestAt s.server_id with
      | none => true
      | some t => decide (86400 < now - t)))

/-- Embeds AutoRunnerService.runAutoTestCycle: fetch the two server lists,
concatenate them, and run the tester for each element of the concatenation in
order, continuing past failures. Returns the server ids tested, in order. -/
def AutoRunnerService.runAutoTestCycle (servers : List MailwizzDeliveryServer)
    (lastTestAt : Nat → Option Nat) (now : Nat) : List Nat :=
  let serversUpdatedInLastHour := getActiveServersUpdatedInLastHour servers now
  let serversNotTestedInLast24Hours :=
    getActiveServersNotTestedInLast24Hours servers lastTestAt now
  let serversToTest := serversUpdatedInLastHour ++ serversNotTestedInLast24Hours
  serversToTest.map (fun s => s.server_id)

/-! ## TestDeliveryServer (request handler) -/

/-- Embeds the makeResponse helper: a status code with the message placed in
the response body. -/
def TestDeliveryServer.makeResponse (statusCode : Nat) (message : String) : Nat × String :=
  (statusCode, message)

/-- Embeds TestDeliveryServer.handleTestDeliveryServer over the outcome of the
test run: 200 with Test completed successfully on a normal return, 500 with
the fixed body Test failed when the run threw. -/
def TestDeliveryServer.handleTestDeliveryServer (runOutcome : Except String Unit) :
    Nat × String :=
  match runOutcome with
  | .ok _ => TestDeliveryServer.makeResponse 200 "Test completed successfully"
  | .error _ => TestDeliveryServer.makeResponse 500 "Test failed"

/-- Embeds the handler function of the test-delivery-server endpoint: read the
query string parameter, parse it when truthy, and reject with 404 when the
resulting id is undefined, not a number, or zero, since the source guards with
a falsiness test; otherwise run the test and map its outcome. -/
def TestDeliveryServer.handler (queryId : Option String) (runOutcome : Except String Unit) :
    Nat × String :=
  let deliveryServerId : Option Int :=
    match queryId with
    | some s => if !(s == "") then jsParseInt s else none
    | none => none
  match deliveryServerId with
  | none => TestDeliveryServer.makeResponse 404 "Delivery server ID not found or invalid."
  | some i =>
      if i == 0 then TestDeliveryServer.makeResponse 404 "Delivery server ID not found or invalid."
      else TestDeliveryServer.handleTestDeliveryServer runOutcome

/-! ## Helper lemmas -/

/-- Truthiness of an optional string is exactly nonemptiness of its value with
the empty string as default. -/
theorem jsTruthy_eq_true_iff (o : Option String) : jsTruthy o = true ↔ ¬ (o.getD "" = "") := by
  cases o <;> simp [jsTruthy]

/-- The error component of the bounce retry loop is determined by its
exists component: absent on success, the exhausted-attempts message on
failure. -/
theorem bounceLoop_error_eq (hasBounce : Nat → Bool) (M d : Nat) :
    ∀ r a waits, (EmailInteractionValidator.bounceLoop hasBounce M d r a waits).1.2
      = (if (EmailInteractionValidator.bounceLoop hasBounce M d r a waits).1.1 then none
         else some (EmailInteractionValidator.bounceFailureMessage M)) := by
  intro r
  induction r with
  | zero => intro a waits; simp [EmailInteractionValidator.bounceLoop]
  | succ r ih =>
      intro a waits
      by_cases h : hasBounce (a + 1) = true
      · simp [EmailInteractionValidator.bounceLoop, h]
      · simp only [Bool.not_eq_true] at h
        simp [EmailInteractionValidator.bounceLoop, h, ih]

/-- When the bounce record never appears, the retry loop runs through all its
remaining attempts, waits between consecutive attempts only, and reports the
exhausted-attempts message. -/
theorem bounceLoop_never_found (hasBounce : Nat → Bool) (M d : Nat)
    (hb : ∀ k, hasBounce k = false) :
    ∀ r a waits, EmailInteractionValidator.bounceLoop hasBounce M d r a waits
      = ((false, some (EmailInteractionValidator.bounceFailureMessage M)), a + r,
         waits ++ List.replicate (r - 1) d) := by
  intro r
  induction r with
  | zero => intro a waits; simp [EmailInteractionValidator.bounceLoop]
  | succ r ih =>
      intro a waits
      cases r with
      | zero => simp [EmailInteractionValidator.bounceLoop, hb]
      | succ r2 =>
          rw [show EmailInteractionValidator.bounceLoop hasBounce M d (Nat.succ (Nat.succ r2)) a waits
              = EmailInteractionValidator.bounceLoop hasBounce M d (Nat.succ r2) (a + 1)
                  (waits ++ [d]) from by
            simp [EmailInteractionValidator.bounceLoop, hb]]
          rw [ih]
          simp [Prod.ext_iff, List.replicate_succ, List.append_assoc]
          omega

/-- When every attempt of the retrieval loop fails, the loop performs all its
remaining attempts, waits between consecutive attempts only, and throws the
failure message built from the last per-attempt error. -/
theorem retrieveLoop_all_fail {α : Type} (attempt : Nat → Except String α)
    (m : Nat → String) (interval N : Nat) :
    ∀ r a waits lastError, r + a = N → 1 ≤ r →
      (∀ k, a < k → k ≤ N → attempt k = Except.error (m k)) →
      EmailRetriever.retrieveLoop attempt interval N r a lastError waits
        = (Except.error (EmailRetriever.retrievalFailureMessage N (some (m N))), N,
           waits ++ List.replicate (r - 1) interval) := by
  intro r
  induction r with
  | zero => intro a waits lastError hsum h1 hfail; omega
  | succ r ih =>
      intro a waits lastError hsum _h1 hfail
      have ha : attempt (a + 1) = Except.error (m (a + 1)) := hfail (a + 1) (by omega) (by omega)
      cases r with
      | zero =>
          have haN : a + 1 = N := by omega
          rw [haN] at ha
          simp [EmailRetriever.retrieveLoop, haN, ha]
      | succ r2 =>
          rw [show EmailRetriever.retrieveLoop attempt interval N (Nat.succ (Nat.succ r2)) a
                lastError waits
              = EmailRetriever.retrieveLoop attempt interval N (Nat.succ r2) (a + 1)
                  (some (m (a + 1))) (waits ++ [interval]) from by
            simp [EmailRetriever.retrieveLoop, ha]]
          rw [ih (a + 1) (waits ++ [interval]) (some (m (a + 1))) (by omega) (by omega)
            (fun k hk1 hk2 => hfail k (by omega) hk2)]
          simp [List.replicate_succ]

/-! ## Claim theorems -/

/-- C4 counterexample: an HTTP response with status 404 is received, yet
sendInteractionRequest counts the interaction as failed with the error HTTP
404, because the axios promise rejects for any status outside the 200 to 299
range; the claim that any received response regardless of status yields
success is therefore false at this input. -/
theorem sendInteractionRequest_404_counterexample :
    ¬ ((EmailInteractor.sendInteractionRequest (AxiosOutcome.response 404)).success = true) ∧
    EmailInteractor.sendInteractionRequest (AxiosOutcome.response 404)
      = ⟨false, some "HTTP 404"⟩ := by
  constructor
  · decide
  · decide

/-- C4 (amended): a replayed link counts as successful exactly when the HTTP
response comes back with a status in the 200 to 299 range; a response with any
other status fails the signal with the error HTTP followed by the status, and
a connection-level error or timeout fails it with the error message. -/
theorem sendInteractionRequest_success_iff_2xx (o : AxiosOutcome) :
    ((EmailInteractor.sendInteractionRequest o).success = true ↔
      (∃ s, o = AxiosOutcome.response s ∧ 200 ≤ s ∧ s < 300)) ∧
    (∀ s, o = AxiosOutcome.response s → ¬ (200 ≤ s ∧ s < 300) →
      EmailInteractor.sendInteractionRequest o = ⟨false, some ("HTTP " ++ toString s)⟩) ∧
    (∀ m, o = AxiosOutcome.networkError m →
      EmailInteractor.sendInteractionRequest o = ⟨false, some m⟩) := by
  cases o with
  | response s =>
      refine ⟨?_, ?_, ?_⟩
      · by_cases h : 200 ≤ s ∧ s < 300 <;>
          simp [EmailInteractor.sendInteractionRequest, h]
      · intro t ht hns
        have hts : s = t := AxiosOutcome.response.inj ht
        subst hts
        simp [EmailInteractor.sendInteractionRequest, hns]
      · intro m hm; exact absurd hm (by simp)
  | networkError msg =>
      refine ⟨?_, ?_, ?_⟩
      · simp [EmailInteractor.sendInteractionRequest]
      · intro t ht hns; exact absurd ht (by simp)
      · intro m hm
        have hms : msg = m := AxiosOutcome.networkError.inj hm
        subst hms
        simp [EmailInteractor.sendInteractionRequest]

/-- C4 witness: a 502 response fails the signal with the error HTTP 502, and a
timeout fails it with its message, both obtained from the amended theorem. -/
theorem sendInteractionRequest_success_iff_2xx_witness :
    EmailInteractor.sendInteractionRequest (AxiosOutcome.response 502)
      = ⟨false, some ("HTTP " ++ toString 502)⟩ ∧
    EmailInteractor.sendInteractionRequest (AxiosOutcome.networkError "timeout of 30000ms exceeded")
      = ⟨false, some "timeout of 30000ms exceeded"⟩ :=
  ⟨(sendInteractionRequest_success_iff_2xx (AxiosOutcome.response 502)).2.1 502 rfl (by omega),
   (sendInteractionRequest_success_iff_2xx
      (AxiosOutcome.networkError "timeout of 30000ms exceeded")).2.2
      "timeout of 30000ms exceeded" rfl⟩

/-- C9 counterexample: a parseable server id whose test run throws the error
boom produces status 500 with the fixed body message Test failed, not the
failure message of the error, so the claim that the 500 body carries the
failure message of the terminal error is false at this input. -/
theorem handler_500_body_counterexample :
    TestDeliveryServer.handler (some "5") (Except.error "boom") = (500, "Test failed") ∧
    ¬ (TestDeliveryServer.handler (some "5") (Except.error "boom") = (500, "boom")) := by
  constructor
  · rfl
  · decide

/-- C9 (amended): a request with no or an unparseable delivery server id gets
status 404; a completed test run gets status 200 with body message Test
completed successfully; a test run that throws any terminal error gets status
500 with the fixed body message Test failed, whatever the error message
was. -/
theorem handler_responses (qs : Option String) (out : Except String Unit) :
    (qs = none →
      TestDeliveryServer.handler qs out = (404, "Delivery server ID not found or invalid.")) ∧
    (∀ s, qs = some s → jsParseInt s = none →
      TestDeliveryServer.handler qs out = (404, "Delivery server ID not found or invalid.")) ∧
    (∀ s i, qs = some s → ¬ (s = "") → jsParseInt s = some i → ¬ (i = 0) →
      (out = Except.ok () →
        TestDeliveryServer.handler qs out = (200, "Test completed successfully")) ∧
      (∀ e, out = Except.error e →
        TestDeliveryServer.handler qs out = (500, "Test failed"))) := by
  refine ⟨?_, ?_, ?_⟩
  · intro h; subst h; rfl
  · intro s hqs hparse
    subst hqs
    by_cases hs : s = ""
    · subst hs; rfl
    · simp [TestDeliveryServer.handler, TestDeliveryServer.makeResponse, hs, hparse]
  · intro s i hqs hs hparse hi
    subst hqs
    constructor
    · intro hout
      subst hout
      simp [TestDeliveryServer.handler, TestDeliveryServer.makeResponse,
        TestDeliveryServer.handleTestDeliveryServer, hs, hparse, hi]
    · intro e hout
      subst hout
      simp [TestDeliveryServer.handler, TestDeliveryServer.makeResponse,
        TestDeliveryServer.handleTestDeliveryServer, hs, hparse, hi]

/-- C9 witness: a missing id gets 404, the id 7 with a completed run gets 200
with the success body, and the id 7 with a throwing run gets 500 with the
fixed failure body, all from the amended theorem at concrete inputs. -/
theorem handler_responses_witness :
    TestDeliveryServer.handler none (Except.ok ())
      = (404, "Delivery server ID not found or invalid.") ∧
    TestDeliveryServer.handler (some "7") (Except.ok ())
      = (200, "Test completed successfully") ∧
    TestDeliveryServer.handler (some "7") (Except.error "stage failed")
      = (500, "Test failed") :=
  ⟨(handler_responses none (Except.ok ())).1 rfl,
   ((handler_responses (some "7") (Except.ok ())).2.2 "7" 7 rfl (by decide) (by decide)
      (by decide)).1 rfl,
   ((handler_responses (some "7") (Except.error "stage failed")).2.2 "7" 7 rfl (by decide)
      (by decide) (by decide)).2 "stage failed" rfl⟩

/-- C10: each of the four tracking-store checks reports false instead of
propagating a raised database error, and composing the validator with the
connector under an open-query outage yields the ordinary missing-open
validation failure rather than a raised input-output error. -/
theorem statsConnector_swallows_db_errors (e : String) :
    MailwizzInteractionStatsDbConnector.hasCampaignOpenRecords (Except.error e) = false ∧
    MailwizzInteractionStatsDbConnector.hasCampaignUrlClickRecords (Except.error e) = false ∧
    MailwizzInteractionStatsDbConnector.hasCampaignUnsubscribeRecords (Except.error e) = false ∧
    MailwizzInteractionStatsDbConnector.hasCampaignBounceRecords (Except.error e) = false ∧
    EmailInteractionValidator.validateInteractionRecords
      (auditEnvOfQueries (Except.error e) (Except.ok [1]) (Except.ok [1]) (fun _ => Except.ok [1]))
      = Except.error "No email open tracking records found in database" := by
  refine ⟨rfl, rfl, rfl, rfl, ?_⟩
  rfl

/-- C1 evaluation at the failing input: server 42 exists and the campaign
creation stage throws boom. The orchestrator appends a test row, writes status
inactive for the server, and rethrows boom; but the row carries status PENDING
and no error message, because the create method of the connector declares only
the server id parameter and the status FAILED and message arguments passed by
the caller are dropped at run time, contradicting the claimed Failed verdict
with the originating message. -/
theorem runForDeliveryServer_failure_row_is_pending :
    MailwizzTester.runForDeliveryServer
      { getServer := Except.ok (some ⟨42, "test@acme.com", "active", 0⟩)
        prepare := Except.ok ()
        createCampaign := Except.error "boom"
        retrieveEmail := Except.ok ()
        interact := Except.ok ()
        validateRecords := Except.ok ()
        testHeaders := Except.ok ()
        addToGroup := Except.ok () }
      42 ⟨[], []⟩
      = (Except.error "boom",
         ⟨[⟨42, MailwizzDeliveryServersTestsStatus.PENDING, none⟩], [(42, "inactive")]⟩) ∧
    ¬ (MailwizzDeliveryServersTestsStatus.PENDING = MailwizzDeliveryServersTestsStatus.FAILED) := by
  constructor
  · rfl
  · decide

/-- C8 counterexample: server 7 is active, was updated 10 seconds before the
cycle and has its last verdict far beyond 24 hours, so it appears in both
fetched lists; the cycle tests it twice, contradicting the claimed
deduplication by server id. -/
theorem runAutoTestCycle_overlap_counterexample :
    AutoRunnerService.runAutoTestCycle [⟨7, "t@x.com", "active", 99990⟩]
      (fun _ => some 1) 100000 = [7, 7] ∧
    ¬ ((AutoRunnerService.runAutoTestCycle [⟨7, "t@x.com", "active", 99990⟩]
        (fun _ => some 1) 100000).count 7 ≤ 1) := by
  constructor
  · rfl
  · decide

/-- C8 (amended): the servers tested in a cycle are the plain concatenation of
the recently-updated list and the long-untested list; membership-wise this is
their union, but no deduplication happens, so a server in both lists is tested
once per occurrence. -/
theorem runAutoTestCycle_concatenates (servers : List MailwizzDeliveryServer)
    (lastTestAt : Nat → Option Nat) (now x : Nat) :
    (x ∈ AutoRunnerService.runAutoTestCycle servers lastTestAt now ↔
      x ∈ (getActiveServersUpdatedInLastHour servers now).map (fun s => s.server_id) ∨
      x ∈ (getActiveServersNotTestedInLast24Hours servers lastTestAt now).map
        (fun s => s.server_id)) ∧
    (AutoRunnerService.runAutoTestCycle servers lastTestAt now).count x
      = ((getActiveServersUpdatedInLastHour servers now).map (fun s => s.server_id)).count x
        + ((getActiveServersNotTestedInLast24Hours servers lastTestAt now).map
            (fun s => s.server_id)).count x := by
  constructor
  · simp [AutoRunnerService.runAutoTestCycle, List.mem_append]
  · simp [AutoRunnerService.runAutoTestCycle, List.count_append]

/-- C5: with maxAttempts N at least 1 and a mailbox in which every numbered
scan attempt fails, retrieveEmailWithRetries performs exactly N attempts,
waits the configured interval exactly between consecutive attempts and not
after the last, and throws the failure message that embeds the error of the
last attempt. -/
theorem retrieveEmailWithRetries_exhausts_attempts {α : Type}
    (attempt : Nat → Except String α) (m : Nat → String) (N interval : Nat)
    (hN : 1 ≤ N) (hfail : ∀ k, 1 ≤ k → k ≤ N → attempt k = Except.error (m k)) :
    EmailRetriever.retrieveEmailWithRetries attempt N interval
      = (Except.error ("Email retrieval failed after " ++ toString N ++ " attempts: " ++ m N),
         N, List.replicate (N - 1) interval) := by
  have key := retrieveLoop_all_fail attempt m interval N N 0 [] none (by omega) hN
    (fun k hk1 hk2 => hfail k (by omega) hk2)
  simpa [EmailRetriever.retrieveEmailWithRetries, EmailRetriever.retrievalFailureMessage]
    using key

/-- C5 witness: three attempts against a mailbox that never holds the tagged
message give three failures, two waits of one minute, and the failure message
embedding the last per-attempt error, by the theorem at this input. -/
theorem retrieveEmailWithRetries_exhausts_attempts_witness :
    EmailRetriever.retrieveEmailWithRetries
      (fun k => (Except.error ("Email with UUID u not found in scan " ++ toString k)
        : Except String Unit)) 3 60000
      = (Except.error ("Email retrieval failed after " ++ toString 3 ++ " attempts: "
          ++ ("Email with UUID u not found in scan " ++ toString 3)),
         3, List.replicate 2 60000) :=
  retrieveEmailWithRetries_exhausts_attempts
    (fun k => Except.error ("Email with UUID u not found in scan " ++ toString k))
    (fun k => "Email with UUID u not found in scan " ++ toString k) 3 60000
    (by omega) (fun k _ _ => rfl)

/-- C6: when the bounce record never appears, the bounce check performs
exactly 10 attempts under the default configuration, waits 60 seconds exactly
between consecutive attempts and not after the last, and reports the bounce
signal absent with the message No bounce records found after 10 attempts,
while the full validator queries open, click and unsubscribe exactly once
each. -/
theorem validateBounce_ten_attempts (env : AuditEnv)
    (hb : ∀ k, env.hasBounce k = false) :
    EmailInteractionValidator.validateBounceRecordsWithRetry env.hasBounce
      EmailInteractionValidator.DEFAULT_BOUNCE_MAX_ATTEMPTS
      EmailInteractionValidator.DEFAULT_BOUNCE_RETRY_DELAY_MS
      = ((false, some "No bounce records found after 10 attempts"), 10,
         List.replicate 9 60000) ∧
    (EmailInteractionValidator.validateEmailInteractionsFromMailwizz env).2.count
      AuditSignal.opened = 1 ∧
    (EmailInteractionValidator.validateEmailInteractionsFromMailwizz env).2.count
      AuditSignal.clicked = 1 ∧
    (EmailInteractionValidator.validateEmailInteractionsFromMailwizz env).2.count
      AuditSignal.unsubscribed = 1 ∧
    (EmailInteractionValidator.validateEmailInteractionsFromMailwizz env).2.count
      AuditSignal.bounced = 10 := by
  have key := bounceLoop_never_found env.hasBounce 10 60000 hb 10 0 []
  have hmsg : EmailInteractionValidator.bounceFailureMessage 10
      = "No bounce records found after 10 attempts" := by decide
  have hloop : EmailInteractionValidator.validateBounceRecordsWithRetry env.hasBounce
      EmailInteractionValidator.DEFAULT_BOUNCE_MAX_ATTEMPTS
      EmailInteractionValidator.DEFAULT_BOUNCE_RETRY_DELAY_MS
      = ((false, some "No bounce records found after 10 attempts"), 10,
         List.replicate 9 60000) := by
    rw [EmailInteractionValidator.validateBounceRecordsWithRetry,
      EmailInteractionValidator.DEFAULT_BOUNCE_MAX_ATTEMPTS,
      EmailInteractionValidator.DEFAULT_BOUNCE_RETRY_DELAY_MS, key, hmsg]
    rfl
  refine ⟨hloop, ?_, ?_, ?_, ?_⟩ <;>
    simp [EmailInteractionValidator.validateEmailInteractionsFromMailwizz, hloop,
      List.count_append, List.count_replicate]

/-- C6 witness: the theorem at an environment whose bounce query always
answers false and whose other three signals are present. -/
theorem validateBounce_ten_attempts_witness :
    EmailInteractionValidator.validateBounceRecordsWithRetry
      (AuditEnv.hasBounce ⟨true, true, true, fun _ => false⟩)
      EmailInteractionValidator.DEFAULT_BOUNCE_MAX_ATTEMPTS
      EmailInteractionValidator.DEFAULT_BOUNCE_RETRY_DELAY_MS
      = ((false, some "No bounce records found after 10 attempts"), 10,
         List.replicate 9 60000) ∧
    (EmailInteractionValidator.validateEmailInteractionsFromMailwizz
      ⟨true, true, true, fun _ => false⟩).2.count AuditSignal.bounced = 10 := by
  have h := validateBounce_ten_attempts ⟨true, true, true, fun _ => false⟩ (fun k => rfl)
  exact ⟨h.1, h.2.2.2.2⟩

/-- C2: the overall interaction result is success exactly when at least 2 of
the 3 per-signal success flags hold, so exactly 2 successes give overall
success and exactly 1 gives overall failure; and when the email holds no
tracking pixel, no content link and no unsubscribe link, every signal is
marked failed with its missing-link error and the overall result is
failure. -/
theorem simulateEmailInteractions_threshold (env : InteractionEnv) :
    ((EmailInteractor.simulateEmailInteractions env).success = true ↔
      2 ≤ interactionSuccessCount (EmailInteractor.simulateEmailInteractions env)) ∧
    (interactionSuccessCount (EmailInteractor.simulateEmailInteractions env) = 2 →
      (EmailInteractor.simulateEmailInteractions env).success = true) ∧
    (interactionSuccessCount (EmailInteractor.simulateEmailInteractions env) = 1 →
      (EmailInteractor.simulateEmailInteractions env).success = false) ∧
    (env.trackingPixelUrl = none → env.contentLinks = [] → env.unsubscribeLink = none →
      (EmailInteractor.simulateEmailInteractions env).openSuccess = false ∧
      (EmailInteractor.simulateEmailInteractions env).clickSuccess = false ∧
      (EmailInteractor.simulateEmailInteractions env).unsubscribeSuccess = false ∧
      (EmailInteractor.simulateEmailInteractions env).errors
        = ⟨some "No tracking pixel URL found", some "No content links found",
           some "No unsubscribe link found"⟩ ∧
      (EmailInteractor.simulateEmailInteractions env).success = false) := by
  refine ⟨?_, ?_, ?_, ?_⟩
  · simp [EmailInteractor.simulateEmailInteractions, interactionSuccessCount]
  · intro h
    simp only [EmailInteractor.simulateEmailInteractions, interactionSuccessCount] at h ⊢
    simp [h]
  · intro h
    simp only [EmailInteractor.simulateEmailInteractions, interactionSuccessCount] at h ⊢
    simp [h]
  · intro h1 h2 h3
    simp [EmailInteractor.simulateEmailInteractions,
      EmailInteractor.handleEmailOpenAndUpdateResult,
      EmailInteractor.handleLinkClickAndUpdateResult,
      EmailInteractor.handleUnsubscribeAndUpdateResult,
      interactionSuccessCount, h1, h2, h3]

/-- C2 witness: an email with no links at all makes all three signals fail and
the overall result fail, by the theorem at this input. -/
theorem simulateEmailInteractions_threshold_witness :
    (EmailInteractor.simulateEmailInteractions
      ⟨none, [], none, fun _ => AxiosOutcome.networkError "unused"⟩).openSuccess = false ∧
    (EmailInteractor.simulateEmailInteractions
      ⟨none, [], none, fun _ => AxiosOutcome.networkError "unused"⟩).clickSuccess = false ∧
    (EmailInteractor.simulateEmailInteractions
      ⟨none, [], none, fun _ => AxiosOutcome.networkError "unused"⟩).unsubscribeSuccess = false ∧
    (EmailInteractor.simulateEmailInteractions
      ⟨none, [], none, fun _ => AxiosOutcome.networkError "unused"⟩).errors
      = ⟨some "No tracking pixel URL found", some "No content links found",
         some "No unsubscribe link found"⟩ ∧
    (EmailInteractor.simulateEmailInteractions
      ⟨none, [], none, fun _ => AxiosOutcome.networkError "unused"⟩).success = false :=
  (simulateEmailInteractions_threshold
    ⟨none, [], none, fun _ => AxiosOutcome.networkError "unused"⟩).2.2.2 rfl rfl rfl

/-- C3: the validator returns normally exactly when all four audit signals
are confirmed; and whenever exactly 3 of the 4 are present, it throws with
the error message of the missing signal, which names that signal. -/
theorem validateInteractionRecords_requires_all_four (env : AuditEnv) :
    (EmailInteractionValidator.validateInteractionRecords env = Except.ok () ↔
      ((EmailInteractionValidator.validateEmailInteractionsFromMailwizz env).1.openRecordsExist
          = true ∧
       (EmailInteractionValidator.validateEmailInteractionsFromMailwizz env).1.clickRecordsExist
          = true ∧
       (EmailInteractionValidator.validateEmailInteractionsFromMailwizz env).1.unsubscribeRecordsExist
          = true ∧
       (EmailInteractionValidator.validateEmailInteractionsFromMailwizz env).1.bounceRecordsExist
          = true)) ∧
    (((EmailInteractionValidator.validateEmailInteractionsFromMailwizz env).1.openRecordsExist
          = false ∧
      (EmailInteractionValidator.validateEmailInteractionsFromMailwizz env).1.clickRecordsExist
          = true ∧
      (EmailInteractionValidator.validateEmailInteractionsFromMailwizz env).1.unsubscribeRecordsExist
          = true ∧
      (EmailInteractionValidator.validateEmailInteractionsFromMailwizz env).1.bounceRecordsExist
          = true) →
      EmailInteractionValidator.validateInteractionRecords env
        = Except.error "No email open tracking records found in database" ∧
      strMentions "open" "No email open tracking records found in database" = true) ∧
    (((EmailInteractionValidator.validateEmailInteractionsFromMailwizz env).1.openRecordsExist
          = true ∧
      (EmailInteractionValidator.validateEmailInteractionsFromMailwizz env).1.clickRecordsExist
          = false ∧
      (EmailInteractionValidator.validateEmailInteractionsFromMailwizz env).1.unsubscribeRecordsExist
          = true ∧
      (EmailInteractionValidator.validateEmailInteractionsFromMailwizz env).1.bounceRecordsExist
          = true) →
      EmailInteractionValidator.validateInteractionRecords env
        = Except.error "No URL click tracking records found in database" ∧
      strMentions "click" "No URL click tracking records found in database" = true) ∧
    (((EmailInteractionValidator.validateEmailInteractionsFromMailwizz env).1.openRecordsExist
          = true ∧
      (EmailInteractionValidator.validateEmailInteractionsFromMailwizz env).1.clickRecordsExist
          = true ∧
      (EmailInteractionValidator.validateEmailInteractionsFromMailwizz env).1.unsubscribeRecordsExist
          = false ∧
      (EmailInteractionValidator.validateEmailInteractionsFromMailwizz env).1.bounceRecordsExist
          = true) →
      EmailInteractionValidator.validateInteractionRecords env
        = Except.error "No unsubscribe tracking records found in database" ∧
      strMentions "unsubscribe" "No unsubscribe tracking records found in database" = true) ∧
    (((EmailInteractionValidator.validateEmailInteractionsFromMailwizz env).1.openRecordsExist
          = true ∧
      (EmailInteractionValidator.validateEmailInteractionsFromMailwizz env).1.clickRecordsExist
          = true ∧
      (EmailInteractionValidator.validateEmailInteractionsFromMailwizz env).1.unsubscribeRecordsExist
          = true ∧
      (EmailInteractionValidator.validateEmailInteractionsFromMailwizz env).1.bounceRecordsExist
          = false) →
      EmailInteractionValidator.validateInteractionRecords env
        = Except.error "No bounce records found after 10 attempts" ∧
      strMentions "bounce" "No bounce records found after 10 attempts" = true) := by
  have herr : (EmailInteractionValidator.validateBounceRecordsWithRetry env.hasBounce
      EmailInteractionValidator.DEFAULT_BOUNCE_MAX_ATTEMPTS
      EmailInteractionValidator.DEFAULT_BOUNCE_RETRY_DELAY_MS).1.2
      = (if (EmailInteractionValidator.validateBounceRecordsWithRetry env.hasBounce
          EmailInteractionValidator.DEFAULT_BOUNCE_MAX_ATTEMPTS
          EmailInteractionValidator.DEFAULT_BOUNCE_RETRY_DELAY_MS).1.1 then none
         else some (EmailInteractionValidator.bounceFailureMessage
          EmailInteractionValidator.DEFAULT_BOUNCE_MAX_ATTEMPTS)) :=
    bounceLoop_error_eq env.hasBounce
      EmailInteractionValidator.DEFAULT_BOUNCE_MAX_ATTEMPTS
      EmailInteractionValidator.DEFAULT_BOUNCE_RETRY_DELAY_MS
      EmailInteractionValidator.DEFAULT_BOUNCE_MAX_ATTEMPTS 0 []
  have hbmsg : EmailInteractionValidator.bounceFailureMessage
      EmailInteractionValidator.DEFAULT_BOUNCE_MAX_ATTEMPTS
      = "No bounce records found after 10 attempts" := by decide
  rw [hbmsg] at herr
  cases ho : env.hasOpen <;> cases hc : env.hasClick <;> cases hu : env.hasUnsub <;>
    cases hbb : (EmailInteractionValidator.validateBounceRecordsWithRetry env.hasBounce
      EmailInteractionValidator.DEFAULT_BOUNCE_MAX_ATTEMPTS
      EmailInteractionValidator.DEFAULT_BOUNCE_RETRY_DELAY_MS).1.1 <;>
    rw [hbb] at herr <;>
    simp [EmailInteractionValidator.validateInteractionRecords,
      EmailInteractionValidator.validateEmailInteractionsFromMailwizz,
      jsFilterJoinErrors, ho, hc, hu, hbb, herr] <;>
    decide

/-- C3 witness: with open, click and unsubscribe present and the bounce record
never appearing, the validator throws the bounce message, which names the
bounce signal, by the theorem at this input. -/
theorem validateInteractionRecords_requires_all_four_witness :
    EmailInteractionValidator.validateInteractionRecords ⟨true, true, true, fun _ => false⟩
      = Except.error "No bounce records found after 10 attempts" ∧
    strMentions "bounce" "No bounce records found after 10 attempts" = true :=
  (validateInteractionRecords_requires_all_four ⟨true, true, true, fun _ => false⟩).2.2.2.2
    ⟨rfl, rfl, rfl, rfl⟩

/-- C7 counterexample: the server sends from test at the two-label domain
mail.acme.com. The Sender and Reply-To headers are present and correct, and
the From display name mail.acme equals that domain with its top-level-domain
suffix .com removed, so by the claim all three headers are correct and the
validation should succeed; the code nevertheless fails, because it compares
the name only against the whole domain and against the part before the first
dot, which is mail. -/
theorem validateEmailHeaders_tld_counterexample :
    (EmailHeaderTester.validateEmailHeaders
      ⟨"mail.acme <test@mail.acme.com>",
       [("sender", "test@mail.acme.com"), ("reply-to", "mail.acme.com <test@mail.acme.com>")]⟩
      ⟨1, "test@mail.acme.com", "active", 0⟩).success = false ∧
    (EmailHeaderTester.checkSenderHeader
      ⟨"mail.acme <test@mail.acme.com>",
       [("sender", "test@mail.acme.com"), ("reply-to", "mail.acme.com <test@mail.acme.com>")]⟩
      "test@mail.acme.com").success = true ∧
    (EmailHeaderTester.checkReplyToHeader
      ⟨"mail.acme <test@mail.acme.com>",
       [("sender", "test@mail.acme.com"), ("reply-to", "mail.acme.com <test@mail.acme.com>")]⟩
      "mail.acme.com" "test@mail.acme.com").success = true ∧
    EmailHeaderTester.extractName "mail.acme <test@mail.acme.com>" = "mail.acme" ∧
    "mail.acme" ++ ".com" = "mail.acme.com" := by
  decide

/-- C7 (amended): header validation succeeds exactly when the Sender, From and
Reply-To checks all succeed, with no partial-success threshold; a missing
Reply-To header fails the validation regardless of the other two; and the From
check succeeds exactly when the value is present with an extractable address
that matches the expected email ignoring case, and the display name is absent
or matches, ignoring case, the domain of the expected address either whole or
cut at its first dot. -/
theorem validateEmailHeaders_strict_conjunction (email : ParsedEmailModel)
    (server : MailwizzDeliveryServer) :
    ((EmailHeaderTester.validateEmailHeaders email server).success = true ↔
      ((EmailHeaderTester.checkSenderHeader email server.from_email).success = true ∧
       (EmailHeaderTester.checkFromHeader email (expectedNameOf server)
          server.from_email).success = true ∧
       (EmailHeaderTester.checkReplyToHeader email (expectedNameOf server)
          server.from_email).success = true)) ∧
    (jsTruthy (replyToHeaderValue email) = false →
      (EmailHeaderTester.validateEmailHeaders email server).success = false) ∧
    (∀ en ee, (EmailHeaderTester.checkFromHeader email en ee).success = true ↔
      (jsTruthy (fromHeaderValue email) = true ∧
       ¬ (EmailHeaderTester.extractEmailAddress ((fromHeaderValue email).getD "") = "") ∧
       jsToLower (EmailHeaderTester.extractEmailAddress ((fromHeaderValue email).getD ""))
          = jsToLower ee ∧
       (EmailHeaderTester.extractName ((fromHeaderValue email).getD "") = "" ∨
        jsToLower (EmailHeaderTester.extractName ((fromHeaderValue email).getD ""))
          = jsToLower en ∨
        jsToLower (EmailHeaderTester.extractName ((fromHeaderValue email).getD ""))
          = jsToLower (String.mk ((splitOnChar '.' en.toList).headD []))))) := by
  refine ⟨?_, ?_, ?_⟩
  · simp [EmailHeaderTester.validateEmailHeaders, Bool.and_eq_true, and_assoc]
  · intro h
    simp [EmailHeaderTester.validateEmailHeaders, EmailHeaderTester.checkReplyToHeader, h]
  · intro en ee
    cases h1 : jsTruthy (fromHeaderValue email) with
    | false => simp [EmailHeaderTester.checkFromHeader, h1]
    | true =>
      have hne : ¬ ((fromHeaderValue email).getD "" = "") := (jsTruthy_eq_true_iff _).mp h1
      have hneb : ((fromHeaderValue email).getD "" == "") = false := by
        simp [hne]
      simp only [EmailHeaderTester.checkFromHeader, h1, hneb, Bool.not_true, Bool.false_eq_true,
        if_false]
      cases h2 : EmailHeaderTester.extractEmailAddress ((fromHeaderValue email).getD "") == ""
        with
      | true =>
        have h2e : EmailHeaderTester.extractEmailAddress ((fromHeaderValue email).getD "") = "" :=
          by simpa using h2
        simp [h2e]
      | false =>
        have h2e : ¬ (EmailHeaderTester.extractEmailAddress
            ((fromHeaderValue email).getD "") = "") := by simpa using h2
        simp only [h2, Bool.false_eq_true, if_false]
        cases h3 : jsToLower (EmailHeaderTester.extractEmailAddress
            ((fromHeaderValue email).getD "")) == jsToLower ee with
        | false =>
          have h3e := beq_eq_false_iff_ne.mp h3
          simp [h3e, h2e]
        | true =>
          have h3e : jsToLower (EmailHeaderTester.extractEmailAddress
              ((fromHeaderValue email).getD "")) = jsToLower ee := by simpa using h3
          simp only [h3, Bool.not_true, Bool.false_eq_true, if_false]
          cases h4a : EmailHeaderTester.extractName ((fromHeaderValue email).getD "") == ""
            with
          | true =>
            have h4ae : EmailHeaderTester.extractName ((fromHeaderValue email).getD "") = "" :=
              by simpa using h4a
            simp [h4a, h1, h2e, h3e, h4ae]
          | false =>
            have h4ae : ¬ (EmailHeaderTester.extractName
                ((fromHeaderValue email).getD "") = "") := by simpa using h4a
            cases h4b : jsToLower (EmailHeaderTester.extractName
                ((fromHeaderValue email).getD "")) == jsToLower en with
            | true =>
              have h4be : jsToLower (EmailHeaderTester.extractName
                  ((fromHeaderValue email).getD "")) = jsToLower en := by simpa using h4b
              simp [h4a, h4b, h1, h2e, h3e, h4be]
            | false =>
              have h4be := beq_eq_false_iff_ne.mp h4b
              cases h4c : jsToLower (EmailHeaderTester.extractName
                  ((fromHeaderValue email).getD ""))
                  == jsToLower (String.mk ((splitOnChar '.' en.toList).headD [])) with
              | true =>
                have h4ce : jsToLower (EmailHeaderTester.extractName
                    ((fromHeaderValue email).getD ""))
                    = jsToLower (String.mk ((splitOnChar '.' en.toList).headD [])) := by
                  simpa using h4c
                simp [h4a, h4b, h4c, h1, h2e, h3e, h4ce]
              | false =>
                have h4ce := beq_eq_false_iff_ne.mp h4c
                simp [h4a, h4b, h4c, h1, h2e, h3e, h4ae, h4be]
                simpa using h4ce

/-- C7 witness: an email with no reply-to header under any of its four
spellings fails validation whatever the other headers hold, by the amended
theorem at this input. -/
theorem validateEmailHeaders_strict_conjunction_witness :
    (EmailHeaderTester.validateEmailHeaders
      ⟨"acme <test@acme.com>", [("sender", "test@acme.com")]⟩
      ⟨1, "test@acme.com", "active", 0⟩).success = false :=
  (validateEmailHeaders_strict_conjunction
    ⟨"acme <test@acme.com>", [("sender", "test@acme.com")]⟩
    ⟨1, "test@acme.com", "active", 0⟩).2.1 (by decide)
